import Mathlib

/-!
Verification development for the university-manager terminal application
(Rust sources: `src/models.rs`, `src/data_manager.rs`, `src/modal.rs`,
`src/widgets.rs`, `src/ui.rs`, `src/main.rs`).

The Rust code is shallowly embedded: records become structures, `Vec` becomes
`List`, `u32`/`usize` become `Nat` (subtraction is truncated, matching release
builds on the in-range inputs the program produces), `f32` values are modelled
exactly as rationals plus the non-finite values `inf`, `negInf`, `nan`
(IEEE-754 rounding of decimal literals is not modelled), `Result`/`Option`
become `Except`/`Option`, and the file system is modelled explicitly: reads are
an abstract `FileState` (absent, present-parseable, present-unparseable) and
every write performed by `save_to_file` is recorded in an event log carried by
the `DataManager` state.  `Uuid::new_v4` is modelled by passing the freshly
generated identifier as an explicit argument.
-/

namespace UniMgr

/-- Model of a Rust `f32` value as produced by `str::parse::<f32>`: an exact
rational for finite values (the IEEE-754 rounding step is not modelled), plus
the infinities and NaN. -/
inductive F32 where
  | finite (q : ℚ)
  | inf
  | negInf
  | nan
deriving DecidableEq

/-- The Rust comparison `g >= bound` on an `f32`: NaN compares false. -/
def F32.geQ : F32 → ℚ → Bool
  | .finite x, b => decide (b ≤ x)
  | .inf, _ => true
  | .negInf, _ => false
  | .nan, _ => false

/-- The Rust comparison `g <= bound` on an `f32`: NaN compares false. -/
def F32.leQ : F32 → ℚ → Bool
  | .finite x, b => decide (x ≤ b)
  | .inf, _ => false
  | .negInf, _ => true
  | .nan, _ => false

/-- `Student` record (src/models.rs). -/
structure Student where
  id : String
  first_name : String
  last_name : String
  age : Nat
  major : String
  gpa : F32
deriving DecidableEq

/-- `Student::new` (src/models.rs): `Uuid::new_v4` is modelled by the explicit
`fresh` argument. -/
def Student.new (fresh : String) (first_name last_name : String) (age : Nat)
    (major : String) (gpa : F32) : Student :=
  ⟨fresh, first_name, last_name, age, major, gpa⟩

/-- `Student::with_id` (src/models.rs). -/
def Student.with_id (id first_name last_name : String) (age : Nat)
    (major : String) (gpa : F32) : Student :=
  ⟨id, first_name, last_name, age, major, gpa⟩

/-- `Student::full_name` (src/models.rs): `format!("{} {}", first, last)`. -/
def Student.full_name (s : Student) : String :=
  s.first_name ++ " " ++ s.last_name

/-- `Teacher` record (src/models.rs). -/
structure Teacher where
  id : String
  first_name : String
  last_name : String
  age : Nat
  department : String
  title : String
deriving DecidableEq

/-- `Teacher::new` (src/models.rs). -/
def Teacher.new (fresh : String) (first_name last_name : String) (age : Nat)
    (department title : String) : Teacher :=
  ⟨fresh, first_name, last_name, age, department, title⟩

/-- `Teacher::with_id` (src/models.rs). -/
def Teacher.with_id (id first_name last_name : String) (age : Nat)
    (department title : String) : Teacher :=
  ⟨id, first_name, last_name, age, department, title⟩

/-- `Teacher::full_name` (src/models.rs). -/
def Teacher.full_name (t : Teacher) : String :=
  t.first_name ++ " " ++ t.last_name

/-- `Faculty` record (src/models.rs). -/
structure Faculty where
  id : String
  name : String
  building : String
  head_name : String
  established_year : Nat
  num_staff : Nat
deriving DecidableEq

/-- `Faculty::new` (src/models.rs). -/
def Faculty.new (fresh : String) (name building head_name : String)
    (established_year num_staff : Nat) : Faculty :=
  ⟨fresh, name, building, head_name, established_year, num_staff⟩

/-- `Faculty::with_id` (src/models.rs). -/
def Faculty.with_id (id name building head_name : String)
    (established_year num_staff : Nat) : Faculty :=
  ⟨id, name, building, head_name, established_year, num_staff⟩

/-! ### String helpers used by the Rust code -/

/-- Numeric value of a list of decimal digit characters. -/
def decDigitsVal (ds : List Char) : Nat :=
  ds.foldl (fun acc d => acc * 10 + (d.toNat - 48)) 0

/-- Model of Rust `str::parse::<u32>`: optional leading `+`, then one or more
decimal digits; a leading `-` and any other character fail; values not below
`2^32` overflow and fail. -/
def parseU32 (s : String) : Option Nat :=
  match s.data with
  | [] => none
  | c :: rest =>
    if c = '-' then none
    else
      let ds := if c = '+' then rest else c :: rest
      if ds.isEmpty then none
      else if ds.all Char.isDigit then
        let v := decDigitsVal ds
        if v < 4294967296 then some v else none
      else none

/-- Exponent part of a Rust float literal: optional sign then one or more
decimal digits. -/
def parseExpPart (cs : List Char) : Option Int :=
  match cs with
  | [] => none
  | c :: rest =>
    let signed : Bool × List Char :=
      if c = '-' then (true, rest)
      else if c = '+' then (false, rest)
      else (false, c :: rest)
    let ds := signed.2
    if ds.isEmpty then none
    else if ds.all Char.isDigit then
      let v : Int := decDigitsVal ds
      some (if signed.1 then -v else v)
    else none

/-- Model of Rust `str::parse::<f32>`: optional sign; the case-insensitive
special values `inf`, `infinity`, `nan`; otherwise decimal digits with an
optional single point (at least one digit overall) and an optional exponent.
Finite values are kept as exact rationals: the IEEE-754 rounding of the decimal
literal to the nearest `f32` (including overflow of huge exponents to infinity)
is not modelled. -/
def parseF32 (s : String) : Option F32 :=
  match s.data with
  | [] => none
  | first :: restAll =>
    let signed : Bool × List Char :=
      if first = '-' then (true, restAll)
      else if first = '+' then (false, restAll)
      else (false, first :: restAll)
    let neg := signed.1
    let cs := signed.2
    let low := cs.map Char.toLower
    if low = ['i', 'n', 'f'] ∨ low = ['i', 'n', 'f', 'i', 'n', 'i', 't', 'y'] then
      some (if neg then F32.negInf else F32.inf)
    else if low = ['n', 'a', 'n'] then
      some F32.nan
    else
      let intPart := cs.takeWhile Char.isDigit
      let rest1 := cs.dropWhile Char.isDigit
      let fracAndRest : List Char × List Char :=
        match rest1 with
        | '.' :: r => (r.takeWhile Char.isDigit, r.dropWhile Char.isDigit)
        | r => ([], r)
      let fracPart := fracAndRest.1
      let rest2 := fracAndRest.2
      if intPart.length + fracPart.length = 0 then none
      else
        let mantNum : Nat :=
          decDigitsVal intPart * 10 ^ fracPart.length + decDigitsVal fracPart
        let mantDen : Nat := 10 ^ fracPart.length
        match rest2 with
        | [] =>
          let num : Int := if neg then -(mantNum : Int) else (mantNum : Int)
          some (.finite (mkRat num mantDen))
        | e :: r =>
          if e = 'e' ∨ e = 'E' then
            match parseExpPart r with
            | some ex =>
              let scaledNum : Nat :=
                if 0 ≤ ex then mantNum * 10 ^ ex.toNat else mantNum
              let scaledDen : Nat :=
                if 0 ≤ ex then mantDen else mantDen * 10 ^ (-ex).toNat
              let num : Int := if neg then -(scaledNum : Int) else (scaledNum : Int)
              some (.finite (mkRat num scaledDen))
            | none => none
          else none

/-- Model of Rust `str::to_lowercase` as used by the search functions.  The
code only ever compares results of this one function with each other, so the
ASCII mapping of `Char.toLower` is an adequate model of the Unicode mapping. -/
def lowerStr (s : String) : String :=
  String.mk (s.data.map Char.toLower)

/-- Model of Rust `str::contains(&str)`: substring (contiguous) search. -/
def strContains (hay needle : String) : Bool :=
  decide (needle.data <:+: hay.data)

/-! ### DataManager (src/data_manager.rs) -/

/-- One full-collection file write performed by `DataManager::save_to_file`. -/
inductive SaveEvent where
  | students (data : List Student)
  | teachers (data : List Teacher)
  | faculties (data : List Faculty)
deriving DecidableEq

/-- `DataManager` (src/data_manager.rs).  The three collections plus the log of
file writes performed so far (the model of the on-disk side effects of
`save_to_file`; writes always succeed in the model). -/
structure DataManager where
  students : List Student
  teachers : List Teacher
  faculties : List Faculty
  saves : List SaveEvent
deriving DecidableEq

/-- `DataManager::save_students`: a `save_to_file` of the full collection. -/
def DataManager.save_students (dm : DataManager) : DataManager :=
  { dm with saves := dm.saves ++ [SaveEvent.students dm.students] }

/-- `DataManager::save_teachers`. -/
def DataManager.save_teachers (dm : DataManager) : DataManager :=
  { dm with saves := dm.saves ++ [SaveEvent.teachers dm.teachers] }

/-- `DataManager::save_faculties`. -/
def DataManager.save_faculties (dm : DataManager) : DataManager :=
  { dm with saves := dm.saves ++ [SaveEvent.faculties dm.faculties] }

/-- `DataManager::add_student`: push then persist. -/
def DataManager.add_student (dm : DataManager) (s : Student) : DataManager :=
  DataManager.save_students { dm with students := dm.students ++ [s] }

/-- `DataManager::add_teacher`. -/
def DataManager.add_teacher (dm : DataManager) (t : Teacher) : DataManager :=
  DataManager.save_teachers { dm with teachers := dm.teachers ++ [t] }

/-- `DataManager::add_faculty`. -/
def DataManager.add_faculty (dm : DataManager) (f : Faculty) : DataManager :=
  DataManager.save_faculties { dm with faculties := dm.faculties ++ [f] }

/-- `DataManager::get_student_by_id`. -/
def DataManager.get_student_by_id (dm : DataManager) (id : String) : Option Student :=
  dm.students.find? (fun s => s.id == id)

/-- `DataManager::update_student`: replace the first entry whose id matches the
payload, in place, and persist; report whether a match was found. -/
def DataManager.update_student (dm : DataManager) (s : Student) :
    DataManager × Bool :=
  match dm.students.findIdx? (fun t => t.id == s.id) with
  | some i => (DataManager.save_students { dm with students := dm.students.set i s }, true)
  | none => (dm, false)

/-- `DataManager::update_teacher`. -/
def DataManager.update_teacher (dm : DataManager) (t : Teacher) :
    DataManager × Bool :=
  match dm.teachers.findIdx? (fun u => u.id == t.id) with
  | some i => (DataManager.save_teachers { dm with teachers := dm.teachers.set i t }, true)
  | none => (dm, false)

/-- `DataManager::update_faculty`. -/
def DataManager.update_faculty (dm : DataManager) (f : Faculty) :
    DataManager × Bool :=
  match dm.faculties.findIdx? (fun g => g.id == f.id) with
  | some i => (DataManager.save_faculties { dm with faculties := dm.faculties.set i f }, true)
  | none => (dm, false)

/-- `DataManager::delete_student`: `retain` every record with a different id,
then persist exactly when the length decreased. -/
def DataManager.delete_student (dm : DataManager) (id : String) :
    DataManager × Bool :=
  let len_before := dm.students.length
  let remaining := dm.students.filter (fun s => s.id != id)
  if remaining.length < len_before then
    (DataManager.save_students { dm with students := remaining }, true)
  else
    ({ dm with students := remaining }, false)

/-- `DataManager::delete_teacher`. -/
def DataManager.delete_teacher (dm : DataManager) (id : String) :
    DataManager × Bool :=
  let len_before := dm.teachers.length
  let remaining := dm.teachers.filter (fun t => t.id != id)
  if remaining.length < len_before then
    (DataManager.save_teachers { dm with teachers := remaining }, true)
  else
    ({ dm with teachers := remaining }, false)

/-- `DataManager::delete_faculty`. -/
def DataManager.delete_faculty (dm : DataManager) (id : String) :
    DataManager × Bool :=
  let len_before := dm.faculties.length
  let remaining := dm.faculties.filter (fun f => f.id != id)
  if remaining.length < len_before then
    (DataManager.save_faculties { dm with faculties := remaining }, true)
  else
    ({ dm with faculties := remaining }, false)

/-- `DataManager::search_students`: lowercase the query once, then keep the
students one of whose designated fields (first name, last name, major)
contains it, in stored order. -/
def DataManager.search_students (dm : DataManager) (query : String) :
    List Student :=
  let q := lowerStr query
  dm.students.filter (fun s =>
    strContains (lowerStr s.first_name) q ||
    strContains (lowerStr s.last_name) q ||
    strContains (lowerStr s.major) q)

/-- `DataManager::search_teachers`: fields first name, last name, department,
title. -/
def DataManager.search_teachers (dm : DataManager) (query : String) :
    List Teacher :=
  let q := lowerStr query
  dm.teachers.filter (fun t =>
    strContains (lowerStr t.first_name) q ||
    strContains (lowerStr t.last_name) q ||
    strContains (lowerStr t.department) q ||
    strContains (lowerStr t.title) q)

/-- `DataManager::search_faculties`: fields name, building, head name. -/
def DataManager.search_faculties (dm : DataManager) (query : String) :
    List Faculty :=
  let q := lowerStr query
  dm.faculties.filter (fun f =>
    strContains (lowerStr f.name) q ||
    strContains (lowerStr f.building) q ||
    strContains (lowerStr f.head_name) q)

/-! ### Startup loading (src/data_manager.rs, `load_data` / `load_from_file`) -/

/-- Abstract state of one persisted JSON file: absent, or present with the
outcome of `serde_json::from_reader` (`none` = unparseable). -/
inductive FileState (T : Type) where
  | absent
  | present (parsed : Option (List T))

/-- `DataManager::load_from_file`: a missing file yields the empty collection,
an unparseable file yields the error built by
`.context("Failed to parse ...")`. -/
def load_from_file {T : Type} : FileState T → Except String (List T)
  | .absent => .ok []
  | .present none => .error "Failed to parse"
  | .present (some data) => .ok data

/-- Rust `Result::unwrap_or_default` on a `Result<Vec<T>, _>`. -/
def unwrapOrDefault {T : Type} : Except String (List T) → List T
  | .ok l => l
  | .error _ => []

/-- `DataManager::load_data`: each collection is
`load_from_file(..).unwrap_or_default()`, and the function itself always
returns `Ok`. -/
def load_data (fsS : FileState Student) (fsT : FileState Teacher)
    (fsF : FileState Faculty) :
    Except String (List Student × List Teacher × List Faculty) :=
  Except.ok
    (unwrapOrDefault (load_from_file fsS),
     unwrapOrDefault (load_from_file fsT),
     unwrapOrDefault (load_from_file fsF))

/-! ### Dropdown widget (src/widgets.rs) -/

/-- `MAJORS` (src/widgets.rs): the fixed 18-item enumeration of majors. -/
def MAJORS : List String :=
  ["Computer Science", "Mathematics", "Physics", "Chemistry", "Biology",
   "Engineering", "Economics", "Business", "Psychology", "Sociology",
   "History", "English", "Philosophy", "Political Science", "Art", "Music",
   "Medicine", "Law"]

/-- `DropdownState` (src/widgets.rs): open flag, option list, and the
`ListState` selection modelled as `Option Nat`. -/
structure DropdownState where
  is_open : Bool
  options : List String
  selected : Option Nat
deriving DecidableEq

/-- `DropdownState::new`: closed, with the first option selected. -/
def DropdownState.new (options : List String) : DropdownState :=
  ⟨false, options, some 0⟩

/-- `DropdownState::toggle_open`. -/
def DropdownState.toggle_open (d : DropdownState) : DropdownState :=
  { d with is_open := !d.is_open }

/-- `DropdownState::select_next`: advance the selection cursor, wrapping from
the last option to the first (`usize` subtraction `len - 1` is truncated). -/
def DropdownState.select_next (d : DropdownState) : DropdownState :=
  let i :=
    match d.selected with
    | some i => if d.options.length - 1 ≤ i then 0 else i + 1
    | none => 0
  { d with selected := some i }

/-- `DropdownState::select_prev`: move the selection cursor back, wrapping from
the first option to the last. -/
def DropdownState.select_prev (d : DropdownState) : DropdownState :=
  let i :=
    match d.selected with
    | some i => if i = 0 then d.options.length - 1 else i - 1
    | none => 0
  { d with selected := some i }

/-- `DropdownState::selected_item`. -/
def DropdownState.selected_item (d : DropdownState) : Option String :=
  match d.selected with
  | some i => d.options[i]?
  | none => none

/-! ### Modal form engine (src/modal.rs) -/

/-- `InputField` (src/modal.rs).  The Rust variants `Name` and `None` are
rendered `nameField` and `noneField`. -/
inductive InputField where
  | firstName
  | lastName
  | age
  | major
  | gpa
  | department
  | title
  | nameField
  | building
  | headName
  | establishedYear
  | numStaff
  | noneField
deriving DecidableEq

/-- `ModalType` (src/modal.rs). -/
inductive ModalType where
  | addStudent
  | editStudent (student : Student)
  | addTeacher
  | editTeacher (teacher : Teacher)
  | addFaculty
  | editFaculty (faculty : Faculty)
  | deleteConfirmation (id name : String)
  | message (msg : String)
deriving DecidableEq

/-- Rust `u32::to_string` for the prefilled numeric fields of edit forms. -/
def natToString (n : Nat) : String := toString n

/-- Rust `f32::to_string` for the prefilled GPA field of the edit-student
form, modelled only on the values the model distinguishes. -/
def F32.toDisplay : F32 → String
  | .finite q => toString q.num ++ (if q.den = 1 then "" else "/" ++ toString q.den)
  | .inf => "inf"
  | .negInf => "-inf"
  | .nan => "NaN"

/-- `Modal` (src/modal.rs): modal kind, active flag, the ordered
`(field tag, text value)` sequence, the active-field index, the `confirm`
flag, and the embedded major dropdown. -/
structure Modal where
  modal_type : ModalType
  active : Bool
  inputs : List (InputField × String)
  active_field : Nat
  confirm : Bool
  major_dropdown : DropdownState
deriving DecidableEq

/-- `Modal::new` (src/modal.rs): builds the field sequence for the modal kind
(5 fields for add/edit forms, none for delete-confirmation and message) and a
fresh closed dropdown over `MAJORS`. -/
def Modal.new (modal_type : ModalType) : Modal :=
  let inputs : List (InputField × String) :=
    match modal_type with
    | .addStudent =>
      [(.firstName, ""), (.lastName, ""), (.age, ""), (.major, ""), (.gpa, "")]
    | .editStudent student =>
      [(.firstName, student.first_name), (.lastName, student.last_name),
       (.age, natToString student.age), (.major, student.major),
       (.gpa, student.gpa.toDisplay)]
    | .addTeacher =>
      [(.firstName, ""), (.lastName, ""), (.age, ""), (.department, ""),
       (.title, "")]
    | .editTeacher teacher =>
      [(.firstName, teacher.first_name), (.lastName, teacher.last_name),
       (.age, natToString teacher.age), (.department, teacher.department),
       (.title, teacher.title)]
    | .addFaculty =>
      [(.nameField, ""), (.building, ""), (.headName, ""),
       (.establishedYear, ""), (.numStaff, "")]
    | .editFaculty faculty =>
      [(.nameField, faculty.name), (.building, faculty.building),
       (.headName, faculty.head_name),
       (.establishedYear, natToString faculty.established_year),
       (.numStaff, natToString faculty.num_staff)]
    | .deleteConfirmation _ _ => []
    | .message _ => []
  { modal_type := modal_type
    active := true
    inputs := inputs
    active_field := 0
    confirm := false
    major_dropdown := DropdownState.new MAJORS }

/-- `Modal::next_field`: circular advance of the active-field index, a no-op
on an empty field sequence. -/
def Modal.next_field (m : Modal) : Modal :=
  if m.inputs.isEmpty then m
  else { m with active_field := (m.active_field + 1) % m.inputs.length }

/-- `Modal::prev_field`: circular step back of the active-field index, a no-op
on an empty field sequence. -/
def Modal.prev_field (m : Modal) : Modal :=
  if m.inputs.isEmpty then m
  else
    { m with active_field :=
        if m.active_field = 0 then m.inputs.length - 1 else m.active_field - 1 }

/-- Text value of input field `i` (out-of-range reads yield `""`; the code
only indexes under an explicit length guard). -/
def Modal.fieldVal (m : Modal) (i : Nat) : String :=
  (m.inputs.getD i (InputField.noneField, "")).2

/-- Field tag of input field `i`. -/
def Modal.fieldTag (m : Modal) (i : Nat) : InputField :=
  (m.inputs.getD i (InputField.noneField, "")).1

/-- Overwrite the text value of the active field, keeping its tag. -/
def Modal.setActiveVal (m : Modal) (v : String) : Modal :=
  { m with inputs :=
      m.inputs.set m.active_field (m.fieldTag m.active_field, v) }

/-- `Modal::input` (src/modal.rs): route a character to the active field with
per-field-kind acceptance rules (digits only for `Age`, `EstablishedYear`,
`NumStaff`; digits plus at most one point for `Gpa`; anything otherwise). -/
def Modal.input (m : Modal) (c : Char) : Modal :=
  if m.inputs.isEmpty ∨ m.inputs.length ≤ m.active_field then m
  else
    let v := m.fieldVal m.active_field
    match m.fieldTag m.active_field with
    | .age | .establishedYear | .numStaff =>
      if c.isDigit then m.setActiveVal (v.push c) else m
    | .gpa =>
      if c.isDigit || (c = '.' && !(v.contains '.')) then
        m.setActiveVal (v.push c)
      else m
    | _ => m.setActiveVal (v.push c)

/-- `Modal::backspace`: drop the last character of the active field. -/
def Modal.backspace (m : Modal) : Modal :=
  if m.inputs.isEmpty ∨ m.inputs.length ≤ m.active_field then m
  else m.setActiveVal ((m.fieldVal m.active_field).dropRight 1)

/-- `Modal::create_student` (src/modal.rs): validate non-emptiness of the five
fields, parse age into `[16, 99]` and GPA into `[0.0, 4.0]`, and build the
record (keeping the original id when editing, using the fresh id when
adding). -/
def Modal.create_student (m : Modal) (fresh : String) : Option Student :=
  if m.inputs.length < 5 then none
  else
    let first_name := m.fieldVal 0
    let last_name := m.fieldVal 1
    let age_str := m.fieldVal 2
    let major := m.fieldVal 3
    let gpa_str := m.fieldVal 4
    if first_name = "" ∨ last_name = "" ∨ major = "" ∨ age_str = "" ∨
        gpa_str = "" then none
    else
      match parseU32 age_str with
      | some age =>
        if 16 ≤ age ∧ age ≤ 99 then
          match parseF32 gpa_str with
          | some gpa =>
            if gpa.geQ 0 && gpa.leQ 4 then
              match m.modal_type with
              | .editStudent student =>
                some (Student.with_id student.id first_name last_name age major gpa)
              | _ => some (Student.new fresh first_name last_name age major gpa)
            else none
          | none => none
        else none
      | none => none

/-- `Modal::create_teacher` (src/modal.rs): all five fields non-empty and age
parsed into `[18, 99]`. -/
def Modal.create_teacher (m : Modal) (fresh : String) : Option Teacher :=
  if m.inputs.length < 5 then none
  else
    let first_name := m.fieldVal 0
    let last_name := m.fieldVal 1
    let age_str := m.fieldVal 2
    let department := m.fieldVal 3
    let title := m.fieldVal 4
    if first_name = "" ∨ last_name = "" ∨ department = "" ∨ title = "" ∨
        age_str = "" then none
    else
      match parseU32 age_str with
      | some age =>
        if 18 ≤ age ∧ age ≤ 99 then
          match m.modal_type with
          | .editTeacher teacher =>
            some (Teacher.with_id teacher.id first_name last_name age department title)
          | _ => some (Teacher.new fresh first_name last_name age department title)
        else none
      | none => none

/-- `Modal::create_faculty` (src/modal.rs): all five fields non-empty,
established year parsed into `[1500, 2025]`, staff count positive. -/
def Modal.create_faculty (m : Modal) (fresh : String) : Option Faculty :=
  if m.inputs.length < 5 then none
  else
    let name := m.fieldVal 0
    let building := m.fieldVal 1
    let head_name := m.fieldVal 2
    let established_year_str := m.fieldVal 3
    let num_staff_str := m.fieldVal 4
    if name = "" ∨ building = "" ∨ head_name = "" ∨
        established_year_str = "" ∨ num_staff_str = "" then none
    else
      match parseU32 established_year_str with
      | some established_year =>
        if 1500 ≤ established_year ∧ established_year ≤ 2025 then
          match parseU32 num_staff_str with
          | some num_staff =>
            if 0 < num_staff then
              match m.modal_type with
              | .editFaculty faculty =>
                some (Faculty.with_id faculty.id name building head_name
                  established_year num_staff)
              | _ => some (Faculty.new fresh name building head_name
                  established_year num_staff)
            else none
          | none => none
        else none
      | none => none

/-- `Modal::get_delete_id`. -/
def Modal.get_delete_id (m : Modal) : Option String :=
  match m.modal_type with
  | .deleteConfirmation id _ => some id
  | _ => none

/-! ### AppState and hit testing (src/ui.rs) -/

/-- `ActiveTab` (src/ui.rs). -/
inductive ActiveTab where
  | students
  | teachers
  | faculties
deriving DecidableEq

/-- `ActiveTab::next`. -/
def ActiveTab.next : ActiveTab → ActiveTab
  | .students => .teachers
  | .teachers => .faculties
  | .faculties => .students

/-- `ActiveTab::previous`. -/
def ActiveTab.previous : ActiveTab → ActiveTab
  | .students => .faculties
  | .teachers => .students
  | .faculties => .teachers

/-- `AppState` (src/ui.rs): active tab, the three per-tab `TableState`
selections modelled as `Option Nat`, search buffer, help flag, and the
transient notification with its tick countdown. -/
structure AppState where
  active_tab : ActiveTab
  student_sel : Option Nat
  teacher_sel : Option Nat
  faculty_sel : Option Nat
  search_query : String
  show_help : Bool
  notification : Option String
  notification_timer : Nat
deriving DecidableEq

/-- `AppState::default`: Students tab, every selection at row 0, no
notification. -/
def AppState.default : AppState :=
  ⟨.students, some 0, some 0, some 0, "", false, none, 0⟩

/-- Selection of the current tab (`get_current_table_state` read). -/
def AppState.currentSel (st : AppState) : Option Nat :=
  match st.active_tab with
  | .students => st.student_sel
  | .teachers => st.teacher_sel
  | .faculties => st.faculty_sel

/-- Write the selection of the current tab (`get_current_table_state`
write). -/
def AppState.setCurrentSel (st : AppState) (v : Option Nat) : AppState :=
  match st.active_tab with
  | .students => { st with student_sel := v }
  | .teachers => { st with teacher_sel := v }
  | .faculties => { st with faculty_sel := v }

/-- `AppState::select_next`. -/
def AppState.select_next (st : AppState) : AppState :=
  st.setCurrentSel (match st.currentSel with
    | some i => some (i + 1)
    | none => some 0)

/-- `AppState::select_previous`. -/
def AppState.select_previous (st : AppState) : AppState :=
  st.setCurrentSel (match st.currentSel with
    | some i => if i = 0 then some 0 else some (i - 1)
    | none => some 0)

/-- `AppState::show_notification`: set the message and a 30-tick countdown. -/
def AppState.show_notification (st : AppState) (message : String) : AppState :=
  { st with notification := some message, notification_timer := 30 }

/-- `AppState::update_notification_timer`: decrement and clear at zero. -/
def AppState.update_notification_timer (st : AppState) : AppState :=
  if 0 < st.notification_timer then
    let t := st.notification_timer - 1
    if t = 0 then { st with notification_timer := t, notification := none }
    else { st with notification_timer := t }
  else st

/-- `UiElement` (src/ui.rs).  The Rust variant `None` is rendered
`noneElem`. -/
inductive ActionButton where
  | add
  | edit
  | delete
  | search
  | refresh
deriving DecidableEq

/-- `ModalButton` (src/ui.rs). -/
inductive ModalButton where
  | confirm
  | cancel
deriving DecidableEq

/-- `UiElement` (src/ui.rs). -/
inductive UiElement where
  | tab (t : ActiveTab)
  | tableRow (index : Nat)
  | actionButton (b : ActionButton)
  | modalButton (b : ModalButton)
  | noneElem
deriving DecidableEq

/-- Length of the collection shown on a tab (the per-tab length checks of
`get_element_at_position`). -/
def tabLen (tab : ActiveTab) (dm : DataManager) : Nat :=
  match tab with
  | .students => dm.students.length
  | .teachers => dm.teachers.length
  | .faculties => dm.faculties.length

/-- `get_element_at_position` (src/ui.rs).  The terminal dimensions read from
`crossterm::terminal::size()` are passed as the explicit `termSize`
argument; the unused `app_state` parameter of the Rust signature is kept.
Row 0-2: the tab strip in thirds.  Rows `h-4 .. h-2`: the action bar with the
15/15/15/25 percent splits of `render_action_bar`.  Rows from the hand-patched
`data_start_row = 9` up to the action bar: table rows, valid only below the
current collection's length.  Everything else: none. -/
def get_element_at_position (position : Nat × Nat) (active_tab : ActiveTab)
    (dm : DataManager) (_app_state : AppState) (termSize : Nat × Nat) :
    UiElement :=
  let x := position.1
  let y := position.2
  let terminal_width := termSize.1
  if y ≤ 2 then
    let tab_width := terminal_width / 3
    if x < tab_width then .tab .students
    else if x < tab_width * 2 then .tab .teachers
    else .tab .faculties
  else
    let terminal_height := termSize.2
    let action_bar_row := terminal_height - 4
    if action_bar_row ≤ y ∧ y ≤ action_bar_row + 2 then
      let total_width := terminal_width - 2
      let add_width := total_width * 15 / 100
      let edit_width := total_width * 15 / 100
      let delete_width := total_width * 15 / 100
      let search_width := total_width * 25 / 100
      let add_end := 1 + add_width
      let edit_end := add_end + edit_width
      let delete_end := edit_end + delete_width
      let search_end := delete_end + search_width
      if x < add_end then .actionButton .add
      else if x < edit_end then .actionButton .edit
      else if x < delete_end then .actionButton .delete
      else if x < search_end then .actionButton .search
      else .actionButton .refresh
    else
      let data_start_row := 9
      let table_end_row := action_bar_row
      if data_start_row ≤ y ∧ y < table_end_row then
        let row_index := y - data_start_row
        if row_index < tabLen active_tab dm then .tableRow row_index
        else .noneElem
      else .noneElem

/-! ### App mode state machine (src/main.rs) -/

/-- `AppMode` (src/main.rs). -/
inductive AppMode where
  | normal
  | search
  | modal (m : Modal)
deriving DecidableEq

/-- `App` (src/main.rs), restricted to the state the input router reads and
writes (`should_quit` and the timer plumbing are orthogonal to the embedded
handlers). -/
structure App where
  state : AppState
  dm : DataManager
  mode : AppMode
deriving DecidableEq

/-- The repeated Rust guard
`matches!(modal.modal_type, ModalType::AddStudent | ModalType::EditStudent(_))`. -/
def isStudentModal : ModalType → Bool
  | .addStudent => true
  | .editStudent _ => true
  | _ => false

/-- `App::refresh_data`: reset the current tab's selection to row 0, or clear
it when that collection is empty. -/
def App.refresh_data (app : App) : App :=
  match app.state.active_tab with
  | .students =>
    { app with state := { app.state with
        student_sel := if app.dm.students.isEmpty then none else some 0 } }
  | .teachers =>
    { app with state := { app.state with
        teacher_sel := if app.dm.teachers.isEmpty then none else some 0 } }
  | .faculties =>
    { app with state := { app.state with
        faculty_sel := if app.dm.faculties.isEmpty then none else some 0 } }

/-- `self.state.show_notification(..)` lifted to `App`. -/
def App.notify (app : App) (msg : String) : App :=
  { app with state := app.state.show_notification msg }

/-- Keyboard codes handled by `handle_modal_key_event`. -/
inductive Key where
  | enter
  | esc
  | up
  | down
  | tab
  | backTab
  | backspace
  | char (c : Char)
  | other
deriving DecidableEq

/-- The Enter commit of `handle_modal_key_event` (src/main.rs, the
`match modal_type` block): run the matching create/update/delete, notify, and
on success return to Normal mode and refresh. -/
def App.commitModal (app : App) (m : Modal) (fresh : String) : App :=
  match m.modal_type with
  | .addStudent =>
    match m.create_student fresh with
    | some student =>
      let app := { app with dm := app.dm.add_student student }
      let app := app.notify ("Added student: " ++ student.full_name)
      App.refresh_data { app with mode := .normal }
    | none => app.notify "Invalid student data"
  | .editStudent _ =>
    match m.create_student fresh with
    | some student =>
      let app := { app with dm := (app.dm.update_student student).1 }
      let app := app.notify ("Updated student: " ++ student.full_name)
      App.refresh_data { app with mode := .normal }
    | none => app.notify "Invalid student data"
  | .addTeacher =>
    match m.create_teacher fresh with
    | some teacher =>
      let app := { app with dm := app.dm.add_teacher teacher }
      let app := app.notify ("Added teacher: " ++ teacher.full_name)
      App.refresh_data { app with mode := .normal }
    | none => app.notify "Invalid teacher data"
  | .editTeacher _ =>
    match m.create_teacher fresh with
    | some teacher =>
      let app := { app with dm := (app.dm.update_teacher teacher).1 }
      let app := app.notify ("Updated teacher: " ++ teacher.full_name)
      App.refresh_data { app with mode := .normal }
    | none => app.notify "Invalid teacher data"
  | .addFaculty =>
    match m.create_faculty fresh with
    | some faculty =>
      let app := { app with dm := app.dm.add_faculty faculty }
      let app := app.notify ("Added faculty: " ++ faculty.name)
      App.refresh_data { app with mode := .normal }
    | none => app.notify "Invalid faculty data"
  | .editFaculty _ =>
    match m.create_faculty fresh with
    | some faculty =>
      let app := { app with dm := (app.dm.update_faculty faculty).1 }
      let app := app.notify ("Updated faculty: " ++ faculty.name)
      App.refresh_data { app with mode := .normal }
    | none => app.notify "Invalid faculty data"
  | .deleteConfirmation id name =>
    let res :=
      match app.state.active_tab with
      | .students => app.dm.delete_student id
      | .teachers =>
        let r := app.dm.delete_teacher id
        (r.1, r.2)
      | .faculties =>
        let r := app.dm.delete_faculty id
        (r.1, r.2)
    let app := { app with dm := res.1 }
    let app :=
      if res.2 then app.notify ("Deleted: " ++ name)
      else app.notify ("Failed to delete: " ++ name)
    App.refresh_data { app with mode := .normal }
  | .message _ => { app with mode := .normal }

/-- `App::handle_modal_key_event` (src/main.rs).  Esc closes an open major
dropdown, otherwise leaves Modal mode.  Enter on the student major field
toggles or confirms the dropdown; otherwise Enter commits the form.  Up/Down
navigate the dropdown only while it is open on the active major field; Tab and
BackTab always move the field cursor.  Space toggles the dropdown on the major
field and is typed into any other field; characters and Backspace edit the
active field. -/
def App.handle_modal_key_event (app : App) (key : Key) (fresh : String) : App :=
  if key = Key.esc then
    match app.mode with
    | .modal m =>
      if m.active_field = 3 ∧ isStudentModal m.modal_type = true ∧
          m.major_dropdown.is_open = true then
        { app with
          mode := .modal
              ({ m with major_dropdown := { m.major_dropdown with is_open := false } }) }
      else { app with mode := .normal }
    | _ => { app with mode := .normal }
  else if key = Key.enter then
    match app.mode with
    | .modal m =>
      if m.active_field = 3 ∧ isStudentModal m.modal_type = true then
        if m.major_dropdown.is_open then
          match m.major_dropdown.selected_item with
          | some selected =>
            { app with
              mode := .modal
                  ({ m with
                     inputs := m.inputs.set 3 (m.fieldTag 3, selected),
                     major_dropdown := { m.major_dropdown with is_open := false } }) }
          | none => app
        else
          { app with
            mode := .modal
                ({ m with major_dropdown := { m.major_dropdown with is_open := true } }) }
      else app.commitModal m fresh
    | _ => app
  else
    match app.mode with
    | .modal m =>
      match key with
      | .up =>
        if m.active_field = 3 ∧ isStudentModal m.modal_type = true ∧
            m.major_dropdown.is_open = true then
          { app with
            mode := .modal ({ m with major_dropdown := m.major_dropdown.select_prev }) }
        else { app with mode := .modal m.prev_field }
      | .down =>
        if m.active_field = 3 ∧ isStudentModal m.modal_type = true ∧
            m.major_dropdown.is_open = true then
          { app with
            mode := .modal ({ m with major_dropdown := m.major_dropdown.select_next }) }
        else { app with mode := .modal m.next_field }
      | .tab => { app with mode := .modal m.next_field }
      | .backTab => { app with mode := .modal m.prev_field }
      | .backspace => { app with mode := .modal m.backspace }
      | .char c =>
        if c = ' ' then
          if m.active_field = 3 ∧ isStudentModal m.modal_type = true then
            { app with
              mode := .modal ({ m with major_dropdown := m.major_dropdown.toggle_open }) }
          else { app with mode := .modal (m.input ' ') }
        else { app with mode := .modal (m.input c) }
      | _ => app
    | _ => app

/-! ## Helper lemmas -/

/-- The collection that `load_data` actually installs for one file: empty for
an absent file, empty for an unparseable file (its parse error is discarded by
`unwrap_or_default`), the parsed data otherwise. -/
def loadedCollection {T : Type} : FileState T → List T
  | .absent => []
  | .present none => []
  | .present (some data) => data

theorem unwrapOrDefault_load {T : Type} (fs : FileState T) :
    unwrapOrDefault (load_from_file fs) = loadedCollection fs := by
  cases fs with
  | absent => rfl
  | present p => cases p <;> rfl

theorem strContains_empty_needle (hay : String) : strContains hay "" = true := by
  simp [strContains]

theorem lowerStr_empty : lowerStr "" = "" := rfl

/-! ## Claims -/

/-- C1, counterexample.  The claim says a present-but-unparseable file causes
a fatal startup error and never a silently empty collection.  At the concrete
input where `students.json` is present but unparseable, `load_from_file`
produces the parse error, yet `load_data` still returns `Ok` with all three
collections empty: startup succeeds and the collection is silently empty. -/
theorem c1_unparseable_counterexample :
    load_data (FileState.present (none : Option (List Student)))
        FileState.absent FileState.absent = Except.ok ([], [], []) ∧
      load_from_file (FileState.present (none : Option (List Student))) =
        Except.error "Failed to parse" :=
  ⟨rfl, rfl⟩

/-- C1, amended.  Loading is best-effort at both levels: a missing file yields
the empty collection, and a present-but-unparseable file also yields the empty
collection (the error produced inside `load_from_file` is discarded by
`unwrap_or_default`), so `load_data` always succeeds and never aborts
startup. -/
theorem c1_load_best_effort :
    ∀ (fsS : FileState Student) (fsT : FileState Teacher)
      (fsF : FileState Faculty),
      load_data fsS fsT fsF =
        Except.ok (loadedCollection fsS, loadedCollection fsT,
          loadedCollection fsF) := by
  intro fsS fsT fsF
  simp [load_data, unwrapOrDefault_load]

/-- C10.  Searching any collection with the empty query returns the entire
collection unchanged (in particular in stored order): the lowercased empty
query is a substring of every lowercased field, so `RecordStore.search("")`
already implements the callers' "show all" convention. -/
theorem c10_empty_query_returns_all :
    ∀ dm : DataManager,
      dm.search_students "" = dm.students ∧
      dm.search_teachers "" = dm.teachers ∧
      dm.search_faculties "" = dm.faculties := by
  intro dm
  refine ⟨?_, ?_, ?_⟩
  · exact List.filter_eq_self.mpr fun a _ => by
      simp [lowerStr_empty, strContains_empty_needle]
  · exact List.filter_eq_self.mpr fun a _ => by
      simp [lowerStr_empty, strContains_empty_needle]
  · exact List.filter_eq_self.mpr fun a _ => by
      simp [lowerStr_empty, strContains_empty_needle]

/-- C6.  Each search returns exactly the records one of whose designated
lowercased text fields contains the lowercased query as a contiguous
substring (student: first name, last name, major; teacher: first name, last
name, department, title; faculty: name, building, head name), and the result
is a sublist of the stored collection, i.e. the matches appear in their
original relative order. -/
theorem c6_search_characterisation :
    ∀ (dm : DataManager) (q : String),
      ((∀ s : Student, s ∈ dm.search_students q ↔ s ∈ dm.students ∧
          ((lowerStr q).data <:+: (lowerStr s.first_name).data ∨
           (lowerStr q).data <:+: (lowerStr s.last_name).data ∨
           (lowerStr q).data <:+: (lowerStr s.major).data)) ∧
        (dm.search_students q).Sublist dm.students) ∧
      ((∀ t : Teacher, t ∈ dm.search_teachers q ↔ t ∈ dm.teachers ∧
          ((lowerStr q).data <:+: (lowerStr t.first_name).data ∨
           (lowerStr q).data <:+: (lowerStr t.last_name).data ∨
           (lowerStr q).data <:+: (lowerStr t.department).data ∨
           (lowerStr q).data <:+: (lowerStr t.title).data)) ∧
        (dm.search_teachers q).Sublist dm.teachers) ∧
      ((∀ f : Faculty, f ∈ dm.search_faculties q ↔ f ∈ dm.faculties ∧
          ((lowerStr q).data <:+: (lowerStr f.name).data ∨
           (lowerStr q).data <:+: (lowerStr f.building).data ∨
           (lowerStr q).data <:+: (lowerStr f.head_name).data)) ∧
        (dm.search_faculties q).Sublist dm.faculties) := by
  intro dm q
  refine ⟨⟨?_, List.filter_sublist _⟩, ⟨?_, List.filter_sublist _⟩,
    ⟨?_, List.filter_sublist _⟩⟩
  · intro s
    simp [DataManager.search_students, List.mem_filter, strContains]
    intro _
    tauto
  · intro t
    simp [DataManager.search_teachers, List.mem_filter, strContains]
    intro _
    tauto
  · intro f
    simp [DataManager.search_faculties, List.mem_filter, strContains]
    intro _
    tauto


/-! ## Field navigation (C9) -/

theorem next_field_iterate :
    ∀ (k : Nat) (mt : ModalType) (ac : Bool) (inp : List (InputField × String))
      (af : Nat) (cf : Bool) (dd : DropdownState), af < inp.length →
      Modal.next_field^[k] ⟨mt, ac, inp, af, cf, dd⟩ =
        ⟨mt, ac, inp, (af + k) % inp.length, cf, dd⟩ := by
  intro k
  induction k with
  | zero =>
    intro mt ac inp af cf dd h
    simp [Nat.mod_eq_of_lt h]
  | succ k ih =>
    intro mt ac inp af cf dd h
    have hpos : 0 < inp.length := Nat.lt_of_le_of_lt (Nat.zero_le _) h
    have hne : inp.isEmpty = false := by
      cases inp
      · simp at hpos
      · rfl
    rw [Function.iterate_succ_apply]
    have h1 : Modal.next_field ⟨mt, ac, inp, af, cf, dd⟩ =
        ⟨mt, ac, inp, (af + 1) % inp.length, cf, dd⟩ := by
      simp [Modal.next_field, hne]
    rw [h1, ih mt ac inp _ cf dd (Nat.mod_lt _ hpos)]
    have h2 : ((af + 1) % inp.length + k) % inp.length =
        (af + (k + 1)) % inp.length := by
      rw [Nat.mod_add_mod]
      congr 1
      omega
    rw [h2]

/-- C9.  Field navigation is circular and total: on an empty field sequence
(delete-confirmation and message forms) `next_field` and `prev_field` are
no-ops; on a non-empty sequence of length `n` with a valid active index,
`next_field` advances the index by one modulo `n`, `prev_field` steps it back
by one modulo `n`, `prev_field` undoes `next_field`, and `n` applications of
`next_field` restore the form. -/
theorem c9_field_navigation_circular :
    ∀ m : Modal,
      (m.inputs = [] → m.next_field = m ∧ m.prev_field = m) ∧
      (m.active_field < m.inputs.length →
        (m.next_field.active_field = (m.active_field + 1) % m.inputs.length ∧
         m.prev_field.active_field =
           (m.active_field + m.inputs.length - 1) % m.inputs.length ∧
         m.next_field.prev_field = m ∧
         Modal.next_field^[m.inputs.length] m = m)) := by
  intro m
  obtain ⟨mt, ac, inp, af, cf, dd⟩ := m
  constructor
  · intro he
    subst he
    constructor
    · simp [Modal.next_field]
    · simp [Modal.prev_field]
  · intro h
    simp only at h
    have hpos : 0 < inp.length := Nat.lt_of_le_of_lt (Nat.zero_le _) h
    have hne : inp.isEmpty = false := by
      cases inp
      · simp at hpos
      · rfl
    refine ⟨?_, ?_, ?_, ?_⟩
    · simp [Modal.next_field, hne]
    · simp only [Modal.prev_field, hne, Bool.false_eq_true, if_false]
      rcases Nat.eq_zero_or_pos af with h0 | hpos2
      · subst h0
        simp [Nat.mod_eq_of_lt (show inp.length - 1 < inp.length by omega)]
      · have hrw : af + inp.length - 1 = (af - 1) + inp.length := by omega
        simp only [hrw, Nat.add_mod_right]
        simp [Nat.mod_eq_of_lt (show af - 1 < inp.length by omega), Nat.pos_iff_ne_zero.mp hpos2]
    · simp only [Modal.next_field, hne, Bool.false_eq_true, if_false, Modal.prev_field]
      rcases Nat.lt_or_ge (af + 1) inp.length with hlt | hge
      · rw [Nat.mod_eq_of_lt hlt]
        simp
      · have heq : af + 1 = inp.length := by omega
        rw [heq, Nat.mod_self]
        simp
        omega
    · rw [next_field_iterate inp.length mt ac inp af cf dd h,
        Nat.add_mod_right, Nat.mod_eq_of_lt h]

/-! ## Update semantics (C4) -/

theorem findIdx?_append_cons {α : Type} (p : α → Bool) :
    ∀ (l₁ : List α) (x : α) (l₂ : List α) (i : Nat),
      (∀ a ∈ l₁, p a = false) → p x = true →
      List.findIdx? p (l₁ ++ x :: l₂) i = some (i + l₁.length) := by
  intro l₁
  induction l₁ with
  | nil =>
    intro x l₂ i h hx
    simp [List.findIdx?_cons, hx]
  | cons b t ih =>
    intro x l₂ i h hx
    have hb : p b = false := h b (List.mem_cons_self b t)
    rw [List.cons_append, List.findIdx?_cons, hb]
    simp only [Bool.false_eq_true, if_false]
    rw [ih x l₂ (i + 1) (fun a ha => h a (List.mem_cons_of_mem b ha)) hx]
    congr 1
    simp
    omega

/-- C4.  `update_student`: when no stored record carries the payload id, the
whole `DataManager` (collections and write log) is returned unchanged with
`false`; when the collection splits as `l₁ ++ x :: l₂` with the first match
`x`, exactly that entry is replaced by the payload in place (all other
positions and the collection length are preserved), the new collection is
persisted by one appended write, and `true` is returned.  Since the match
requires `x.id = s.id`, the stored record keeps its id while every other
field becomes the payload's. -/
theorem c4_update_semantics :
    ∀ (dm : DataManager) (s : Student),
      ((∀ t ∈ dm.students, t.id ≠ s.id) → dm.update_student s = (dm, false)) ∧
      (∀ l₁ x l₂, dm.students = l₁ ++ x :: l₂ →
        (∀ t ∈ l₁, t.id ≠ s.id) → x.id = s.id →
        dm.update_student s =
          ({ dm with students := l₁ ++ s :: l₂,
                     saves := dm.saves ++ [SaveEvent.students (l₁ ++ s :: l₂)] },
            true) ∧
        (l₁ ++ s :: l₂).length = dm.students.length) := by
  intro dm s
  constructor
  · intro h
    have hnone : dm.students.findIdx? (fun t => t.id == s.id) = none := by
      rw [List.findIdx?_eq_none_iff]
      intro t ht
      simp [h t ht]
    simp [DataManager.update_student, hnone]
  · intro l₁ x l₂ hsplit h₁ hx
    have hsome : dm.students.findIdx? (fun t => t.id == s.id) = some l₁.length := by
      rw [hsplit]
      have := findIdx?_append_cons (fun t : Student => t.id == s.id) l₁ x l₂ 0
        (fun a ha => by simp [h₁ a ha]) (by simp [hx])
      simpa using this
    have hset : dm.students.set l₁.length s = l₁ ++ s :: l₂ := by
      rw [hsplit, List.set_append]
      simp
    constructor
    · simp [DataManager.update_student, hsome, DataManager.save_students, hset]
    · rw [hsplit]
      simp

/-! ## Delete semantics (C5) -/

theorem filter_id_ne_of_not_mem (l : List Student) (id : String)
    (h : ∀ t ∈ l, t.id ≠ id) : l.filter (fun s => s.id != id) = l :=
  List.filter_eq_self.mpr fun a ha => by
    rw [bne_iff_ne]
    exact h a ha

theorem filter_length_of_unique_id (id : String) :
    ∀ l : List Student, l.Pairwise (fun a b => a.id ≠ b.id) →
      ∀ x ∈ l, x.id = id →
      (l.filter (fun s => s.id != id)).length + 1 = l.length := by
  intro l
  induction l with
  | nil => intro _ x hx; simp at hx
  | cons b t ih =>
    intro hp x hx hxid
    rcases List.pairwise_cons.mp hp with ⟨hb, ht⟩
    rcases List.mem_cons.mp hx with rfl | hxt
    · have hbid : (x.id != id) = false := by
        simp [hxid]
      rw [List.filter_cons, hbid]
      simp only [Bool.false_eq_true, if_false]
      rw [filter_id_ne_of_not_mem t id (fun u hu => by
        have := hb u hu
        rw [hxid] at this
        exact fun he => this he.symm)]
      simp
    · have hbne : (b.id != id) = true := by
        rw [bne_iff_ne]
        intro he
        exact hb x hxt (he.trans hxid.symm)
      rw [List.filter_cons, hbne]
      simp only [if_true, List.length_cons]
      have := ih ht x hxt hxid
      omega

/-- C5.  `delete_student` on a collection with pairwise-distinct ids: deleting
an absent id leaves the whole `DataManager` (collection and write log)
unchanged and returns `false`; deleting a present id returns `true`, shrinks
the collection by exactly one, leaves no record with that id, preserves the
relative order of the remaining records (sublist), leaves the other
collections untouched, and persists the shrunken collection with one appended
write. -/
theorem c5_delete_semantics :
    ∀ (dm : DataManager) (id : String),
      dm.students.Pairwise (fun a b => a.id ≠ b.id) →
      ((∀ t ∈ dm.students, t.id ≠ id) → dm.delete_student id = (dm, false)) ∧
      ((∃ x ∈ dm.students, x.id = id) →
        (dm.delete_student id).2 = true ∧
        (dm.delete_student id).1.students.length + 1 = dm.students.length ∧
        (∀ t ∈ (dm.delete_student id).1.students, t.id ≠ id) ∧
        (dm.delete_student id).1.students.Sublist dm.students ∧
        (dm.delete_student id).1.teachers = dm.teachers ∧
        (dm.delete_student id).1.faculties = dm.faculties ∧
        (dm.delete_student id).1.saves =
          dm.saves ++
            [SaveEvent.students ((dm.delete_student id).1.students)]) := by
  intro dm id hpw
  constructor
  · intro h
    have hfix : dm.students.filter (fun s => s.id != id) = dm.students :=
      filter_id_ne_of_not_mem dm.students id h
    simp [DataManager.delete_student, hfix]
  · rintro ⟨x, hxmem, hxid⟩
    have hlt : (dm.students.filter (fun s => s.id != id)).length <
        dm.students.length := by
      rw [List.length_filter_lt_length_iff_exists]
      exact ⟨x, hxmem, by simp [hxid]⟩
    have hdel : dm.delete_student id =
        ({ dm with students := dm.students.filter (fun s => s.id != id),
                   saves := dm.saves ++
                     [SaveEvent.students
                       (dm.students.filter (fun s => s.id != id))] }, true) := by
      simp [DataManager.delete_student, hlt, DataManager.save_students]
    rw [hdel]
    refine ⟨rfl, ?_, ?_, List.filter_sublist _, rfl, rfl, rfl⟩
    · exact filter_length_of_unique_id id dm.students hpw x hxmem hxid
    · intro t ht
      have := (List.mem_filter.mp ht).2
      rwa [bne_iff_ne] at this


/-! ## Hit testing (C8) -/

/-- C8.  When no modal is active, the hit tester reports a table row index
`k` only when `k` is below the current tab's collection length, and any
coordinate inside the table-row band whose computed row index reaches the
collection length maps to no element at all. -/
theorem c8_hit_test_row_bound :
    ∀ (pos : Nat × Nat) (tab : ActiveTab) (dm : DataManager) (st : AppState)
      (sz : Nat × Nat),
      (∀ k, get_element_at_position pos tab dm st sz = UiElement.tableRow k →
        k < tabLen tab dm) ∧
      (9 ≤ pos.2 → pos.2 < sz.2 - 4 → tabLen tab dm ≤ pos.2 - 9 →
        get_element_at_position pos tab dm st sz = UiElement.noneElem) := by
  intro pos tab dm st sz
  obtain ⟨x, y⟩ := pos
  obtain ⟨w, h⟩ := sz
  constructor
  · intro k hk
    unfold get_element_at_position at hk
    dsimp only at hk
    split_ifs at hk
    all_goals simp_all
  · intro h9 hband hlen
    unfold get_element_at_position
    dsimp only
    rw [if_neg (by omega : ¬ y ≤ 2)]
    rw [if_neg (by omega : ¬ (h - 4 ≤ y ∧ y ≤ h - 4 + 2))]
    rw [if_pos (⟨h9, hband⟩ : 9 ≤ y ∧ y < h - 4)]
    rw [if_neg (by omega : ¬ y - 9 < tabLen tab dm)]

/-! ## Dropdown sub-mode vs navigation (C3, C7) -/

theorem inputs_not_empty_of_len5 (m : Modal) (h : m.inputs.length = 5) :
    m.inputs.isEmpty = false := by
  cases hi : m.inputs
  · rw [hi] at h
    simp at h
  · rfl

/-- C7.  With a student form whose major field is active and whose dropdown
is open, Esc closes only the dropdown: the application stays in Modal mode
with the very same form (same modal kind, same field texts, same active
field), only the dropdown's open flag is cleared, and neither the record
store nor the rest of the app state changes. -/
theorem c7_esc_closes_only_dropdown :
    ∀ (app : App) (m : Modal) (fresh : String),
      app.mode = AppMode.modal m →
      isStudentModal m.modal_type = true →
      m.active_field = 3 →
      m.major_dropdown.is_open = true →
      app.handle_modal_key_event Key.esc fresh =
        { app with
          mode := AppMode.modal
              ({ m with major_dropdown :=
                  { m.major_dropdown with is_open := false } }) } := by
  intro app m fresh hmode hstu haf hopen
  unfold App.handle_modal_key_event
  rw [if_pos rfl, hmode]
  dsimp only
  rw [if_pos ⟨haf, hstu, hopen⟩]

/-- C3, amended.  While the student form's major dropdown is open, only
up/down are shadowed by the dropdown: they move the dropdown's own selection
cursor and leave the form's active-field index unchanged, but Tab and
BackTab ignore the open dropdown and still move the form's active-field
cursor (from 3 to 4 and from 3 to 2 on the five-field student form). -/
theorem c3_dropdown_navigation_amended :
    ∀ (app : App) (m : Modal) (fresh : String),
      app.mode = AppMode.modal m →
      isStudentModal m.modal_type = true →
      m.active_field = 3 →
      m.major_dropdown.is_open = true →
      m.inputs.length = 5 →
      (app.handle_modal_key_event Key.up fresh =
        { app with
          mode := AppMode.modal
              ({ m with major_dropdown := m.major_dropdown.select_prev }) }) ∧
      (app.handle_modal_key_event Key.down fresh =
        { app with
          mode := AppMode.modal
              ({ m with major_dropdown := m.major_dropdown.select_next }) }) ∧
      (app.handle_modal_key_event Key.tab fresh =
        { app with mode := AppMode.modal m.next_field }) ∧
      (app.handle_modal_key_event Key.backTab fresh =
        { app with mode := AppMode.modal m.prev_field }) ∧
      m.next_field.active_field = 4 ∧
      m.prev_field.active_field = 2 := by
  intro app m fresh hmode hstu haf hopen hlen
  have hne := inputs_not_empty_of_len5 m hlen
  refine ⟨?_, ?_, ?_, ?_, ?_, ?_⟩
  · unfold App.handle_modal_key_event
    rw [if_neg (by decide : ¬ (Key.up = Key.esc)),
      if_neg (by decide : ¬ (Key.up = Key.enter)), hmode]
    dsimp only
    rw [if_pos ⟨haf, hstu, hopen⟩]
  · unfold App.handle_modal_key_event
    rw [if_neg (by decide : ¬ (Key.down = Key.esc)),
      if_neg (by decide : ¬ (Key.down = Key.enter)), hmode]
    dsimp only
    rw [if_pos ⟨haf, hstu, hopen⟩]
  · unfold App.handle_modal_key_event
    rw [if_neg (by decide : ¬ (Key.tab = Key.esc)),
      if_neg (by decide : ¬ (Key.tab = Key.enter)), hmode]
  · unfold App.handle_modal_key_event
    rw [if_neg (by decide : ¬ (Key.backTab = Key.esc)),
      if_neg (by decide : ¬ (Key.backTab = Key.enter)), hmode]
  · simp [Modal.next_field, hne, haf, hlen]
  · simp [Modal.prev_field, hne, haf, hlen]

/-- Concrete application state for C3 and its witness: an add-student form
with the major field active and its dropdown open. -/
def c3Modal : Modal :=
  { Modal.new ModalType.addStudent with
      active_field := 3,
      major_dropdown := { DropdownState.new MAJORS with is_open := true } }

/-- Concrete app around `c3Modal` over empty collections. -/
def c3App : App :=
  { state := AppState.default, dm := ⟨[], [], [], []⟩,
    mode := AppMode.modal c3Modal }

/-- Read the active-field index of the current modal, if any. -/
def App.modalActiveField (app : App) : Option Nat :=
  match app.mode with
  | .modal m => some m.active_field
  | _ => none

/-- Read the dropdown open flag of the current modal, if any. -/
def App.modalDropdownOpen (app : App) : Bool :=
  match app.mode with
  | .modal m => m.major_dropdown.is_open
  | _ => false

/-- C3, counterexample.  In the concrete state `c3App` the student form's
major dropdown is open with the field cursor on the major field (index 3),
yet pressing Tab moves the form's active-field cursor to index 4 and BackTab
moves it to index 2: the dropdown sub-mode does not take priority for the
Tab and reverse-Tab navigation keys, contradicting the claim. -/
theorem c3_tab_moves_cursor_counterexample :
    c3App.modalDropdownOpen = true ∧
    c3App.modalActiveField = some 3 ∧
    (c3App.handle_modal_key_event Key.tab "fresh-id").modalActiveField =
      some 4 ∧
    (c3App.handle_modal_key_event Key.backTab "fresh-id").modalActiveField =
      some 2 :=
  ⟨rfl, rfl, rfl, rfl⟩

/-- C3, witness for the amended theorem, at the concrete state `c3App`. -/
theorem c3_dropdown_navigation_witness :
    (c3App.handle_modal_key_event Key.up "fresh-id" =
      { c3App with
        mode := AppMode.modal
            ({ c3Modal with major_dropdown := c3Modal.major_dropdown.select_prev }) }) ∧
    (c3App.handle_modal_key_event Key.down "fresh-id" =
      { c3App with
        mode := AppMode.modal
            ({ c3Modal with major_dropdown := c3Modal.major_dropdown.select_next }) }) ∧
    (c3App.handle_modal_key_event Key.tab "fresh-id" =
      { c3App with mode := AppMode.modal c3Modal.next_field }) ∧
    (c3App.handle_modal_key_event Key.backTab "fresh-id" =
      { c3App with mode := AppMode.modal c3Modal.prev_field }) ∧
    c3Modal.next_field.active_field = 4 ∧
    c3Modal.prev_field.active_field = 2 :=
  c3_dropdown_navigation_amended c3App c3Modal "fresh-id" rfl rfl rfl rfl rfl

/-- Concrete application state for the C7 witness (its own copy, not shared
with C3): an edit-student form with the major field active and the dropdown
open. -/
def c7Modal : Modal :=
  { Modal.new (ModalType.editStudent
      ⟨"sid-1", "Ada", "Lovelace", 28, "Mathematics", F32.finite 3⟩) with
      active_field := 3,
      major_dropdown := { DropdownState.new MAJORS with is_open := true } }

/-- Concrete app around `c7Modal`. -/
def c7App : App :=
  { state := AppState.default, dm := ⟨[], [], [], []⟩,
    mode := AppMode.modal c7Modal }

/-- C7, witness at the concrete state `c7App`. -/
theorem c7_esc_witness :
    c7App.handle_modal_key_event Key.esc "fresh-id" =
      { c7App with
        mode := AppMode.modal
            ({ c7Modal with major_dropdown :=
                { c7Modal.major_dropdown with is_open := false } }) } :=
  c7_esc_closes_only_dropdown c7App c7Modal "fresh-id" rfl rfl rfl rfl

/-- C8, witness: on an 80x24 terminal with all collections empty, the
coordinate (5, 10) lies inside the table-row band but its row index 1 is not
below the (zero) collection length, so the hit tester reports no element. -/
theorem c8_hit_test_witness :
    get_element_at_position (5, 10) ActiveTab.students ⟨[], [], [], []⟩
      AppState.default (80, 24) = UiElement.noneElem :=
  (c8_hit_test_row_bound (5, 10) ActiveTab.students ⟨[], [], [], []⟩
    AppState.default (80, 24)).2 (by decide) (by decide) (by decide)


/-! ## Concrete records for the store witnesses -/

/-- Concrete student record used by the C4 and C5 witnesses. -/
def stA : Student := ⟨"id-a", "Ann", "Lee", 20, "Math", F32.finite 3⟩

/-- Second concrete student record. -/
def stB : Student := ⟨"id-b", "Bob", "Kim", 22, "Art", F32.finite 2⟩

/-- Update payload carrying `stB`'s id with different other fields. -/
def stB2 : Student := ⟨"id-b", "Rob", "Kim", 23, "Law", F32.finite 4⟩

/-- Concrete store holding `stA` and `stB` and an empty write log. -/
def dmAB : DataManager := ⟨[stA, stB], [], [], []⟩

/-- C4, witness: updating `dmAB` with the payload `stB2` (id `id-b`) replaces
exactly the second entry, persists once, reports `true`, and keeps the
collection length. -/
theorem c4_update_witness :
    dmAB.update_student stB2 =
      ({ dmAB with students := [stA] ++ stB2 :: [],
                   saves := dmAB.saves ++
                     [SaveEvent.students ([stA] ++ stB2 :: [])] }, true) ∧
    ([stA] ++ stB2 :: []).length = dmAB.students.length :=
  (c4_update_semantics dmAB stB2).2 [stA] stB [] rfl (by decide) rfl

/-- C5, witness: deleting id `id-a` from `dmAB` removes exactly `stA`. -/
theorem c5_delete_witness :
    (dmAB.delete_student "id-a").2 = true ∧
    (dmAB.delete_student "id-a").1.students.length + 1 =
      dmAB.students.length ∧
    (∀ t ∈ (dmAB.delete_student "id-a").1.students, t.id ≠ "id-a") ∧
    (dmAB.delete_student "id-a").1.students.Sublist dmAB.students ∧
    (dmAB.delete_student "id-a").1.teachers = dmAB.teachers ∧
    (dmAB.delete_student "id-a").1.faculties = dmAB.faculties ∧
    (dmAB.delete_student "id-a").1.saves =
      dmAB.saves ++
        [SaveEvent.students ((dmAB.delete_student "id-a").1.students)] :=
  (c5_delete_semantics dmAB "id-a" (by decide)).2
    ⟨stA, List.mem_cons_self stA [stB], rfl⟩

/-- C9, witness: on the (empty-field) message form both moves are no-ops, and
on the five-field add-student form `prev_field` undoes `next_field`. -/
theorem c9_navigation_witness :
    (Modal.new (ModalType.message "hello")).next_field =
      Modal.new (ModalType.message "hello") ∧
    (Modal.new ModalType.addStudent).next_field.prev_field =
      Modal.new ModalType.addStudent :=
  ⟨((c9_field_navigation_circular (Modal.new (ModalType.message "hello"))).1
      rfl).1,
   ((c9_field_navigation_circular (Modal.new ModalType.addStudent)).2
      (by decide)).2.2.1⟩


/-! ## Commit validation (C2) -/

/-- Modelled from the spec: the claim's validity condition for the student
form — the five fields are present and non-empty, the age parses into
`[16, 99]`, and the GPA parses into `[0.0, 4.0]`. -/
def spec_student_valid (m : Modal) : Prop :=
  5 ≤ m.inputs.length ∧
  m.fieldVal 0 ≠ "" ∧ m.fieldVal 1 ≠ "" ∧ m.fieldVal 3 ≠ "" ∧
  m.fieldVal 2 ≠ "" ∧ m.fieldVal 4 ≠ "" ∧
  (∃ a, parseU32 (m.fieldVal 2) = some a ∧ 16 ≤ a ∧ a ≤ 99) ∧
  (∃ g, parseF32 (m.fieldVal 4) = some g ∧ g.geQ 0 = true ∧ g.leQ 4 = true)

/-- Modelled from the spec: the claim's validity condition for the teacher
form — the five fields non-empty and the age parses into `[18, 99]`. -/
def spec_teacher_valid (m : Modal) : Prop :=
  5 ≤ m.inputs.length ∧
  m.fieldVal 0 ≠ "" ∧ m.fieldVal 1 ≠ "" ∧ m.fieldVal 3 ≠ "" ∧
  m.fieldVal 4 ≠ "" ∧ m.fieldVal 2 ≠ "" ∧
  (∃ a, parseU32 (m.fieldVal 2) = some a ∧ 18 ≤ a ∧ a ≤ 99)

/-- Modelled from the spec: the claim's validity condition for the faculty
form — the five fields non-empty, the established year parses into
`[1500, 2025]`, and the staff count parses positive. -/
def spec_faculty_valid (m : Modal) : Prop :=
  5 ≤ m.inputs.length ∧
  m.fieldVal 0 ≠ "" ∧ m.fieldVal 1 ≠ "" ∧ m.fieldVal 2 ≠ "" ∧
  m.fieldVal 3 ≠ "" ∧ m.fieldVal 4 ≠ "" ∧
  (∃ y, parseU32 (m.fieldVal 3) = some y ∧ 1500 ≤ y ∧ y ≤ 2025) ∧
  (∃ n, parseU32 (m.fieldVal 4) = some n ∧ 0 < n)

theorem create_student_isSome_iff (m : Modal) (fresh : String) :
    (m.create_student fresh).isSome = true ↔ spec_student_valid m := by
  unfold Modal.create_student spec_student_valid
  dsimp only
  split
  · next hlen =>
    simp only [Option.isSome_none, Bool.false_eq_true, false_iff]
    rintro ⟨h5, -⟩
    omega
  · next hlen =>
    split
    · next hemp =>
      simp only [Option.isSome_none, Bool.false_eq_true, false_iff]
      rintro ⟨-, h0, h1, h3, h2, h4, -, -⟩
      rcases hemp with h | h | h | h | h <;> simp_all
    · next hemp =>
      push_neg at hemp
      obtain ⟨h0, h1, h3, h2, h4⟩ := hemp
      rcases hu : parseU32 (m.fieldVal 2) with _ | a
      · simp
      · dsimp only
        split
        · next hrange =>
          rcases hg : parseF32 (m.fieldVal 4) with _ | g
          · simp
          · dsimp only
            split
            · next hb =>
              rw [Bool.and_eq_true] at hb
              constructor
              · intro _
                exact ⟨by omega, h0, h1, h3, h2, h4,
                  ⟨a, rfl, hrange.1, hrange.2⟩, ⟨g, rfl, hb.1, hb.2⟩⟩
              · intro _
                cases m.modal_type <;> simp
            · next hb =>
              simp only [Option.isSome_none, Bool.false_eq_true, false_iff]
              rintro ⟨-, -, -, -, -, -, -, g2, hg2, hge, hle⟩
              rw [Option.some.injEq] at hg2
              subst hg2
              exact hb (by rw [Bool.and_eq_true]; exact ⟨hge, hle⟩)
        · next hrange =>
          simp only [Option.isSome_none, Bool.false_eq_true, false_iff]
          rintro ⟨-, -, -, -, -, -, ⟨a2, ha2, h16, h99⟩, -⟩
          rw [Option.some.injEq] at ha2
          subst ha2
          exact hrange ⟨h16, h99⟩

theorem create_teacher_isSome_iff (m : Modal) (fresh : String) :
    (m.create_teacher fresh).isSome = true ↔ spec_teacher_valid m := by
  unfold Modal.create_teacher spec_teacher_valid
  dsimp only
  split
  · next hlen =>
    simp only [Option.isSome_none, Bool.false_eq_true, false_iff]
    rintro ⟨h5, -⟩
    omega
  · next hlen =>
    split
    · next hemp =>
      simp only [Option.isSome_none, Bool.false_eq_true, false_iff]
      rintro ⟨-, h0, h1, h3, h4, h2, -⟩
      rcases hemp with h | h | h | h | h <;> simp_all
    · next hemp =>
      push_neg at hemp
      obtain ⟨h0, h1, h3, h4, h2⟩ := hemp
      rcases hu : parseU32 (m.fieldVal 2) with _ | a
      · simp
      · dsimp only
        split
        · next hrange =>
          constructor
          · intro _
            exact ⟨by omega, h0, h1, h3, h4, h2,
              ⟨a, rfl, hrange.1, hrange.2⟩⟩
          · intro _
            cases m.modal_type <;> simp
        · next hrange =>
          simp only [Option.isSome_none, Bool.false_eq_true, false_iff]
          rintro ⟨-, -, -, -, -, -, a2, ha2, h18, h99⟩
          rw [Option.some.injEq] at ha2
          subst ha2
          exact hrange ⟨h18, h99⟩

theorem create_faculty_isSome_iff (m : Modal) (fresh : String) :
    (m.create_faculty fresh).isSome = true ↔ spec_faculty_valid m := by
  unfold Modal.create_faculty spec_faculty_valid
  dsimp only
  split
  · next hlen =>
    simp only [Option.isSome_none, Bool.false_eq_true, false_iff]
    rintro ⟨h5, -⟩
    omega
  · next hlen =>
    split
    · next hemp =>
      simp only [Option.isSome_none, Bool.false_eq_true, false_iff]
      rintro ⟨-, h0, h1, h2, h3, h4, -⟩
      rcases hemp with h | h | h | h | h <;> simp_all
    · next hemp =>
      push_neg at hemp
      obtain ⟨h0, h1, h2, h3, h4⟩ := hemp
      rcases hy : parseU32 (m.fieldVal 3) with _ | y
      · simp
      · dsimp only
        split
        · next hyr =>
          rcases hn : parseU32 (m.fieldVal 4) with _ | n
          · simp
          · dsimp only
            split
            · next hnr =>
              constructor
              · intro _
                exact ⟨by omega, h0, h1, h2, h3, h4,
                  ⟨y, rfl, hyr.1, hyr.2⟩, ⟨n, rfl, hnr⟩⟩
              · intro _
                cases m.modal_type <;> simp
            · next hnr =>
              simp only [Option.isSome_none, Bool.false_eq_true, false_iff]
              rintro ⟨-, -, -, -, -, -, -, n2, hn2, hpos⟩
              rw [Option.some.injEq] at hn2
              subst hn2
              exact hnr hpos
        · next hyr =>
          simp only [Option.isSome_none, Bool.false_eq_true, false_iff]
          rintro ⟨-, -, -, -, -, -, ⟨y2, hy2, hlo, hhi⟩, -⟩
          rw [Option.some.injEq] at hy2
          subst hy2
          exact hyr ⟨hlo, hhi⟩

theorem create_student_bounds (m : Modal) (fresh : String) (s : Student)
    (h : m.create_student fresh = some s) :
    16 ≤ s.age ∧ s.age ≤ 99 ∧ s.gpa.geQ 0 = true ∧ s.gpa.leQ 4 = true := by
  unfold Modal.create_student at h
  dsimp only at h
  split at h
  · cases h
  · split at h
    · cases h
    · rcases hu : parseU32 (m.fieldVal 2) with _ | a <;> try rw [hu] at h
      · cases h
      · dsimp only at h
        split at h
        · next hrange =>
          rcases hg : parseF32 (m.fieldVal 4) with _ | g <;> try rw [hg] at h
          · cases h
          · dsimp only at h
            split at h
            · next hb =>
              rw [Bool.and_eq_true] at hb
              split at h <;>
                (rw [Option.some.injEq] at h; subst h;
                 exact ⟨hrange.1, hrange.2, hb.1, hb.2⟩)
            · cases h
        · cases h

theorem create_teacher_bounds (m : Modal) (fresh : String) (t : Teacher)
    (h : m.create_teacher fresh = some t) : 18 ≤ t.age ∧ t.age ≤ 99 := by
  unfold Modal.create_teacher at h
  dsimp only at h
  split at h
  · cases h
  · split at h
    · cases h
    · rcases hu : parseU32 (m.fieldVal 2) with _ | a <;> try rw [hu] at h
      · cases h
      · dsimp only at h
        split at h
        · next hrange =>
          split at h <;>
            (rw [Option.some.injEq] at h; subst h;
             exact ⟨hrange.1, hrange.2⟩)
        · cases h

theorem create_faculty_bounds (m : Modal) (fresh : String) (f : Faculty)
    (h : m.create_faculty fresh = some f) :
    1500 ≤ f.established_year ∧ f.established_year ≤ 2025 ∧
      0 < f.num_staff := by
  unfold Modal.create_faculty at h
  dsimp only at h
  split at h
  · cases h
  · split at h
    · cases h
    · rcases hy : parseU32 (m.fieldVal 3) with _ | y <;> try rw [hy] at h
      · cases h
      · dsimp only at h
        split at h
        · next hyr =>
          rcases hn : parseU32 (m.fieldVal 4) with _ | n <;> try rw [hn] at h
          · cases h
          · dsimp only at h
            split at h
            · next hnr =>
              split at h <;>
                (rw [Option.some.injEq] at h; subst h;
                 exact ⟨hyr.1, hyr.2, hnr⟩)
            · cases h
        · cases h

/-- C2.  Each `create_*` commit returns a record exactly when all five field
texts are non-empty and the numeric fields parse within their bounds (student
age in `[16, 99]`, teacher age in `[18, 99]`, GPA in `[0.0, 4.0]`, established
year in `[1500, 2025]`, staff count positive), and any record actually
returned carries numeric fields satisfying these bounds; every other input
state yields `none` — a validation failure, not an exception. -/
theorem c2_create_validation :
    ∀ (m : Modal) (fresh : String),
      ((m.create_student fresh).isSome = true ↔ spec_student_valid m) ∧
      ((m.create_teacher fresh).isSome = true ↔ spec_teacher_valid m) ∧
      ((m.create_faculty fresh).isSome = true ↔ spec_faculty_valid m) ∧
      (∀ s, m.create_student fresh = some s →
        16 ≤ s.age ∧ s.age ≤ 99 ∧ s.gpa.geQ 0 = true ∧ s.gpa.leQ 4 = true) ∧
      (∀ t, m.create_teacher fresh = some t → 18 ≤ t.age ∧ t.age ≤ 99) ∧
      (∀ f, m.create_faculty fresh = some f →
        1500 ≤ f.established_year ∧ f.established_year ≤ 2025 ∧
          0 < f.num_staff) :=
  fun m fresh =>
    ⟨create_student_isSome_iff m fresh, create_teacher_isSome_iff m fresh,
     create_faculty_isSome_iff m fresh,
     fun s => create_student_bounds m fresh s,
     fun t => create_teacher_bounds m fresh t,
     fun f => create_faculty_bounds m fresh f⟩

/-- Concrete filled-in student form for the C2 witness. -/
def c2Modal : Modal :=
  { Modal.new ModalType.addStudent with
      inputs := [(InputField.firstName, "Ada"), (InputField.lastName, "Lovelace"),
                 (InputField.age, "28"), (InputField.major, "Mathematics"),
                 (InputField.gpa, "3.9")] }

/-- C2, witness: the concrete form `c2Modal` satisfies the validity condition
and `create_student` indeed returns a record for it. -/
theorem c2_validation_witness :
    (c2Modal.create_student "sid-1").isSome = true ∧
      spec_student_valid c2Modal := by
  have hv : spec_student_valid c2Modal :=
    ⟨by decide, by decide, by decide, by decide, by decide, by decide,
     ⟨28, by decide, by decide, by decide⟩,
     ⟨F32.finite (mkRat 39 10), by decide, by decide, by decide⟩⟩
  exact ⟨((c2_create_validation c2Modal "sid-1").1).mpr hv, hv⟩

end UniMgr
